import Mathlib

/-!
Verification of `uxf_aws_download.py` against its specification.

The file shallowly embeds the script's logic:

* the paginated DynamoDB scan loop of `scan_table_to_df` / `download_tracker_data`
  (`scanAll` over a list of server response pages);
* the pandas pipeline `pd.DataFrame.from_records(...).set_index(keys)
  .apply(pd.Series.explode).reset_index()` used to unpack nested per-trial
  lists into one row per observation (`toDF`, `unpack`);
* `save_dataframe`, `get_table_name`, `get_output_file_name`;
* the per-table orchestration of `download_uxf_tables` and
  `download_tracker_data`, with uncaught exceptions modelled as
  `Except.error` and the caught `ResourceNotFoundException` as a skip event;
* the credential handling, table selection and working-directory handling of
  the `__main__` block.

Fallible pandas operations (`set_index` on a frame missing the index
columns, index alignment of exploded columns) return `Option`/`Except`
values, with `none` / `.error` standing for a raised Python exception.
-/

namespace UxfAwsDownload

/-- One page of a DynamoDB `table.scan()` response: the list of items of the
page and the optional `LastEvaluatedKey` continuation token. -/
structure ScanPage (α : Type) where
  Items : List α
  LastEvaluatedKey : Option String

/-- The scan loop of `scan_table_to_df` (lines 38-44) and
`download_tracker_data` (lines 100-105): an initial `table.scan()` call, then
`while 'LastEvaluatedKey' in response:` reissue the scan with the previous
page's token and extend `items` with the new page's items.

The server's behaviour is modelled by the list `pages`: the i-th scan call
(the first with no `ExclusiveStartKey`, each later one passing the previous
page's `LastEvaluatedKey`) returns `pages[i]`.  The result is the collected
item list together with the number of scan calls issued; the loop stops at
the first page whose `LastEvaluatedKey` is absent, ignoring any later pages.
-/
def scanAll : List (ScanPage α) → List α × Nat
  | [] => ([], 0)
  | p :: rest =>
    match p.LastEvaluatedKey with
    | none => (p.Items, 1)
    | some _ => (p.Items ++ (scanAll rest).fst, (scanAll rest).snd + 1)

/-- A well-formed server response sequence: at least one page, every page
before the last carries a continuation token, and the last page carries
none. -/
def pagesWF : List (ScanPage α) → Bool
  | [] => false
  | [p] => p.LastEvaluatedKey.isNone
  | p :: q :: rest => p.LastEvaluatedKey.isSome && pagesWF (q :: rest)

/-- Unfolding of `scanAll` when the first page carries no continuation token. -/
theorem scanAll_cons_none (p : ScanPage α) (rest : List (ScanPage α))
    (hk : p.LastEvaluatedKey = none) :
    scanAll (p :: rest) = (p.Items, 1) := by
  simp [scanAll, hk]

/-- Unfolding of `scanAll` when the first page carries a continuation token. -/
theorem scanAll_cons_some (p : ScanPage α) (rest : List (ScanPage α)) (k : String)
    (hk : p.LastEvaluatedKey = some k) :
    scanAll (p :: rest) = (p.Items ++ (scanAll rest).fst, (scanAll rest).snd + 1) := by
  simp [scanAll, hk]

/-- C1: for every table whose scan yields N pages of server responses
(every page but the last carrying a continuation token), the scan loop of
`scan_table_to_df` issues exactly N scan calls and the collected item list
has size equal to the sum of all pages' item counts, regardless of where the
page boundaries fall; moreover the result is exactly the concatenation of
the pages' items. -/
theorem C1_scan_pagination (ps : List (ScanPage α)) (h : pagesWF ps = true) :
    (scanAll ps).snd = ps.length ∧
    (scanAll ps).fst.length = (ps.map (fun p => p.Items.length)).sum ∧
    (scanAll ps).fst = (ps.map ScanPage.Items).flatten := by
  induction ps with
  | nil => simp [pagesWF] at h
  | cons p rest ih =>
    cases rest with
    | nil =>
      have hnone : p.LastEvaluatedKey = none := by
        cases hk : p.LastEvaluatedKey with
        | none => rfl
        | some k => simp [pagesWF, hk] at h
      rw [scanAll_cons_none p [] hnone]
      simp
    | cons q rs =>
      have hsome : p.LastEvaluatedKey.isSome = true := by
        simp [pagesWF] at h
        exact h.1
      have hrest : pagesWF (q :: rs) = true := by
        simp [pagesWF] at h
        exact h.2
      obtain ⟨k, hk⟩ := Option.isSome_iff_exists.mp hsome
      obtain ⟨ih1, ih2, ih3⟩ := ih hrest
      rw [scanAll_cons_some p (q :: rs) k hk]
      refine ⟨?_, ?_, ?_⟩
      · simp [ih1]
      · simp [ih2]
      · simp [ih3]

/-- Witness for C1 on a concrete two-page response sequence. -/
theorem C1_scan_pagination_witness :
    pagesWF [ScanPage.mk [1, 2] (some "k"), ScanPage.mk [3] none] = true ∧
    ((scanAll [ScanPage.mk [1, 2] (some "k"), ScanPage.mk [3] none]).snd =
      [ScanPage.mk [1, 2] (some "k"), ScanPage.mk [3] none].length ∧
     (scanAll [ScanPage.mk [1, 2] (some "k"), ScanPage.mk [3] none]).fst.length =
      ([ScanPage.mk [1, 2] (some "k"), ScanPage.mk [3] none].map
        (fun p => p.Items.length)).sum ∧
     (scanAll [ScanPage.mk [1, 2] (some "k"), ScanPage.mk [3] none]).fst =
      ([ScanPage.mk [1, 2] (some "k"), ScanPage.mk [3] none].map
        ScanPage.Items).flatten) :=
  ⟨rfl, C1_scan_pagination _ rfl⟩

/-- One cell of a pandas DataFrame as built by `pd.DataFrame.from_records`
from DynamoDB items: a scalar value, a nested ordered sequence (one entry per
trial/observation), or the missing value `NaN`. -/
inductive Cell (V : Type) where
  | scalar : V → Cell V
  | seq : List V → Cell V
  | nan : Cell V

/-- `pd.Series.explode` on a single cell: a scalar (or `NaN`) stays as one
row, a non-empty list becomes one row per element, and an empty list becomes
a single `NaN` row (pandas: empty lists result in a row of `NaN`). -/
def explodeCell : Cell V → List (Cell V)
  | .scalar v => [.scalar v]
  | .seq [] => [.nan]
  | .seq l => l.map .scalar
  | .nan => [.nan]

/-- Number of rows a cell occupies after `pd.Series.explode`. -/
def cellCount (c : Cell V) : Nat := (explodeCell c).length

/-- A DataFrame after `set_index`: the index (one key of type `K` per record)
and the remaining named columns, each a list of cells aligned with the index.
Well-formed frames have every column of the same length as `keys`. -/
structure DF (K V : Type) where
  keys : List K
  cols : List (String × List (Cell V))

/-- Cells of record `i` across all columns of the frame. -/
def rowCells (df : DF K V) (i : Nat) : List (Cell V) :=
  df.cols.map (fun c => c.snd.getD i Cell.nan)

/-- The number of exploded rows record `i` contributes: the maximum exploded
length over the record's cells. -/
def rowMax (df : DF K V) (i : Nat) : Nat :=
  ((rowCells df i).map cellCount).foldr Nat.max 0

/-- The per-record row counts of the exploded frame. -/
def rowMaxes (df : DF K V) : List Nat :=
  (List.range df.keys.length).map (rowMax df)

/-- A column whose exploded index coincides with the union index: in every
record its cell explodes to exactly the record's row count.  Such a column is
aligned positionally by the pandas frame constructor (no reindexing). -/
def colAllMax (df : DF K V) (cells : List (Cell V)) : Bool :=
  (List.range df.keys.length).all (fun i => cellCount (cells.getD i Cell.nan) == rowMax df i)

/-- A column whose exploded index stays one row per record.  With the frame's
keys unique (the script's `ppid_session_dataname` row identifier), such a
column has a unique exploded index and is broadcast by reindexing: its single
value per record is repeated across the record's exploded rows. -/
def colAllOnes (cells : List (Cell V)) : Bool :=
  cells.all (fun c => cellCount c == 1)

/-- Whether `df.apply(pd.Series.explode)` succeeds: reassembling the exploded
columns into a frame aligns their indexes, which succeeds when each column is
either positionally aligned (`colAllMax`) or broadcastable (`colAllOnes`).
Otherwise a column with a duplicated exploded index must be reindexed, and
pandas raises `ValueError: cannot reindex from a duplicate axis`. -/
def unpackAligns (df : DF K V) : Bool :=
  df.cols.all (fun c => colAllMax df c.snd || colAllOnes c.snd)

/-- One exploded column: positionally aligned columns concatenate their
exploded cells; broadcast columns repeat their per-record single row
`rowMax` times. -/
def expandCol (df : DF K V) (cells : List (Cell V)) : List (Cell V) :=
  if colAllMax df cells then cells.flatMap explodeCell
  else (List.range df.keys.length).flatMap
    (fun i => List.replicate (rowMax df i) ((explodeCell (cells.getD i Cell.nan)).getD 0 Cell.nan))

/-- The exploded index: each key repeated by its record's row count. -/
def expandKeys (df : DF K V) : List K :=
  (df.keys.zip (rowMaxes df)).flatMap (fun p => List.replicate p.snd p.fst)

/-- The unpack step `res.set_index(keys).apply(pd.Series.explode).reset_index()`
of `scan_table_to_df` (line 48) and `download_tracker_data` (line 108),
applied to a frame whose index is already set.  `none` models the
`ValueError` pandas raises when the exploded columns cannot be aligned.
The model assumes the frame's keys are unique, which the specification
guarantees for the `ppid_session_dataname` row identifier. -/
def unpack (df : DF K V) : Option (DF K V) :=
  if unpackAligns df then
    some ⟨expandKeys df, df.cols.map (fun c => (c.fst, expandCol df c.snd))⟩
  else none

/-- C2: unpacking a record with group key `K = v`, sequence-valued fields
`a = [a1, a2, a3]` and `b = [b1, b2, b3]` and scalar field `c = cv` produces
exactly 3 exported rows: row `i` holds the key `v`, the i-th element of each
sequence field, and the scalar `cv` unchanged. -/
theorem C2_unpack_exploded_rows (V : Type) (v : String) (na nb nc : String)
    (a1 a2 a3 b1 b2 b3 cv : V) :
    unpack (DF.mk [v]
      [(na, [Cell.seq [a1, a2, a3]]), (nb, [Cell.seq [b1, b2, b3]]),
       (nc, [Cell.scalar cv])]) =
    some (DF.mk [v, v, v]
      [(na, [Cell.scalar a1, Cell.scalar a2, Cell.scalar a3]),
       (nb, [Cell.scalar b1, Cell.scalar b2, Cell.scalar b3]),
       (nc, [Cell.scalar cv, Cell.scalar cv, Cell.scalar cv])]) := rfl

/-- Folding `Nat.max` over a non-empty list of ones yields one. -/
theorem foldr_max_of_ones (l : List Nat) (hones : ∀ n ∈ l, n = 1) (h : l ≠ []) :
    l.foldr Nat.max 0 = 1 := by
  induction l with
  | nil => simp at h
  | cons a t ih =>
    have ha : a = 1 := hones a (by simp)
    cases t with
    | nil => simp [ha]
    | cons b t2 =>
      have ht : (b :: t2).foldr Nat.max 0 = 1 :=
        ih (fun n hn => hones n (List.mem_cons_of_mem a hn)) (by simp)
      simp [List.foldr_cons, ht, ha]

/-- C6: unpacking a single record with no sequence-valued fields (every
field a scalar) produces exactly one exported row identical to the input
record: `unpack` is the identity on all-scalar frames. -/
theorem C6_scalar_record_identity (V : Type) (k : String) (cs : List (String × V))
    (h : cs ≠ []) :
    unpack (DF.mk [k] (cs.map (fun p => (p.fst, [Cell.scalar p.snd])))) =
    some (DF.mk [k] (cs.map (fun p => (p.fst, [Cell.scalar p.snd])))) := by
  have hrow : rowMax (DF.mk [k] (cs.map (fun p => (p.fst, [Cell.scalar p.snd])))) 0 = 1 := by
    unfold rowMax rowCells
    refine foldr_max_of_ones _ ?_ ?_
    · intro n hn
      simp only [List.map_map, List.mem_map] at hn
      obtain ⟨p, _, hp⟩ := hn
      simpa using hp.symm
    · simp [h]
  have hmax : ∀ v : V,
      colAllMax (DF.mk [k] (cs.map (fun p => (p.fst, [Cell.scalar p.snd]))))
        [Cell.scalar v] = true := by
    intro v
    unfold colAllMax
    simp [hrow, cellCount, explodeCell]
  have haligns :
      unpackAligns (DF.mk [k] (cs.map (fun p => (p.fst, [Cell.scalar p.snd])))) = true := by
    unfold unpackAligns
    rw [List.all_eq_true]
    intro c hc
    simp only [List.mem_map] at hc
    obtain ⟨p, _, hp⟩ := hc
    subst hp
    simp [hmax p.snd]
  unfold unpack
  rw [haligns]
  simp only [if_true, Option.some.injEq, DF.mk.injEq]
  refine ⟨?_, ?_⟩
  · unfold expandKeys rowMaxes
    simp [hrow, List.range_succ]
  · refine Eq.trans (List.map_congr_left ?_) (List.map_id _)
    intro c hc
    simp only [List.mem_map] at hc
    obtain ⟨p, _, hp⟩ := hc
    subst hp
    unfold expandCol
    rw [if_pos (hmax p.snd)]
    rfl

/-- Witness for C6 on a concrete one-field record. -/
theorem C6_scalar_record_identity_witness :
    ([(("c", 5) : String × Nat)] ≠ []) ∧
    unpack (DF.mk ["v"]
      ([(("c", 5) : String × Nat)].map (fun p => (p.fst, [Cell.scalar p.snd])))) =
    some (DF.mk ["v"]
      ([(("c", 5) : String × Nat)].map (fun p => (p.fst, [Cell.scalar p.snd])))) :=
  ⟨by simp, C6_scalar_record_identity Nat "v" [("c", 5)] (by simp)⟩

/-- Exploding a non-empty nested list yields one scalar row per element. -/
theorem cellCount_seq (l : List V) (h : l ≠ []) : cellCount (Cell.seq l) = l.length := by
  cases l with
  | nil => simp at h
  | cons a t => simp [cellCount, explodeCell]

/-- C7 counterexample: unpacking a record whose sequence-valued fields have
mismatched lengths (`a = [1, 2, 3]` of length 3 and `b = [9]` of length 1)
does not surface any error: the length-1 field is silently broadcast across
the three exploded rows, so rows are produced. -/
theorem C7_counterexample_broadcast :
    unpack (DF.mk ["v"]
      ([("a", [Cell.seq [1, 2, 3]]), ("b", [Cell.seq [9]])] :
        List (String × List (Cell Nat)))) =
    some (DF.mk ["v", "v", "v"]
      [("a", [Cell.scalar 1, Cell.scalar 2, Cell.scalar 3]),
       ("b", [Cell.scalar 9, Cell.scalar 9, Cell.scalar 9])]) ∧
    unpack (DF.mk ["v"]
      ([("a", [Cell.seq [1, 2, 3]]), ("b", [Cell.seq [9]])] :
        List (String × List (Cell Nat)))) ≠ none :=
  ⟨rfl, fun hc => Option.noConfusion hc⟩

/-- C7 (amended): unpacking a record whose sequence-valued fields have
mismatched lengths, each with at least two elements, raises the pandas
alignment error (`ValueError: cannot reindex from a duplicate axis`),
modelled as `unpack = none`: no misaligned rows are produced.  (Sequence
fields of length at most one are instead silently broadcast, see the
counterexample.) -/
theorem C7_mismatch_raises (V : Type) (k na nb : String) (as bs : List V)
    (ha : 2 ≤ as.length) (hb : 2 ≤ bs.length) (hne : as.length ≠ bs.length) :
    unpack (DF.mk [k] [(na, [Cell.seq as]), (nb, [Cell.seq bs])]) = none := by
  have hanil : as ≠ [] := by intro hh; subst hh; simp at ha
  have hbnil : bs ≠ [] := by intro hh; subst hh; simp at hb
  have hca := cellCount_seq as hanil
  have hcb := cellCount_seq bs hbnil
  have hrow : rowMax (DF.mk [k] [(na, [Cell.seq as]), (nb, [Cell.seq bs])]) 0
      = Nat.max as.length bs.length := by
    unfold rowMax rowCells
    simp [hca, hcb]
  have hA : colAllMax (DF.mk [k] [(na, [Cell.seq as]), (nb, [Cell.seq bs])])
      [Cell.seq as] = (as.length == Nat.max as.length bs.length) := by
    unfold colAllMax
    simp [List.range_succ, hca, hrow]
  have hB : colAllMax (DF.mk [k] [(na, [Cell.seq as]), (nb, [Cell.seq bs])])
      [Cell.seq bs] = (bs.length == Nat.max as.length bs.length) := by
    unfold colAllMax
    simp [List.range_succ, hcb, hrow]
  have hA1 : colAllOnes [Cell.seq as] = (as.length == 1) := by
    unfold colAllOnes
    simp [hca]
  have hB1 : colAllOnes [Cell.seq bs] = (bs.length == 1) := by
    unfold colAllOnes
    simp [hcb]
  have hal : unpackAligns (DF.mk [k] [(na, [Cell.seq as]), (nb, [Cell.seq bs])]) = false := by
    unfold unpackAligns
    simp only [List.all_cons, List.all_nil, Bool.and_true]
    rw [hA, hB, hA1, hB1]
    rcases Nat.lt_or_ge as.length bs.length with hlt | hge
    · have hmaxeq : Nat.max as.length bs.length = bs.length :=
        Nat.max_eq_right (Nat.le_of_lt hlt)
      rw [hmaxeq]
      have e1 : (as.length == bs.length) = false := by
        simp only [beq_eq_false_iff_ne, ne_eq]
        omega
      have e2 : (as.length == 1) = false := by
        simp only [beq_eq_false_iff_ne, ne_eq]
        omega
      simp [e1, e2]
    · have hlt2 : bs.length < as.length := by omega
      have hmaxeq : Nat.max as.length bs.length = as.length :=
        Nat.max_eq_left (Nat.le_of_lt hlt2)
      rw [hmaxeq]
      have e1 : (bs.length == as.length) = false := by
        simp only [beq_eq_false_iff_ne, ne_eq]
        omega
      have e2 : (bs.length == 1) = false := by
        simp only [beq_eq_false_iff_ne, ne_eq]
        omega
      simp [e1, e2]
  simp [unpack, hal]

/-- Witness for C7 (amended) on concrete sequences of lengths 3 and 2. -/
theorem C7_mismatch_raises_witness :
    2 ≤ ([1, 2, 3] : List Nat).length ∧ 2 ≤ ([4, 5] : List Nat).length ∧
    ([1, 2, 3] : List Nat).length ≠ ([4, 5] : List Nat).length ∧
    unpack (DF.mk ["v"] [("a", [Cell.seq [1, 2, 3]]), ("b", [Cell.seq ([4, 5] : List Nat)])])
      = none :=
  ⟨by decide, by decide, by decide,
    C7_mismatch_raises Nat "v" "a" "b" [1, 2, 3] [4, 5] (by decide) (by decide) (by decide)⟩

/-- A DynamoDB item of a standard UXF table: the `ppid_session_dataname` row
identifier and the remaining named fields. -/
structure Item (V : Type) where
  ppid_session_dataname : String
  fields : List (String × Cell V)

/-- The step `pd.DataFrame.from_records(items).set_index(['ppid_session_dataname'])`
(lines 46 and 48) for a non-empty item list, under the spec's assumption that
all records of a table share one schema (same field names in the same order);
`from_records` of an empty list yields the empty frame with no columns, here
the frame with no keys and no columns. -/
def toDF (items : List (Item V)) : DF String V :=
  DF.mk (items.map (fun r => r.ppid_session_dataname))
    (match items with
     | [] => []
     | it0 :: _ =>
       (List.range it0.fields.length).map (fun j =>
         ((it0.fields.getD j ("", Cell.nan)).fst,
          items.map (fun r => (r.fields.getD j ("", Cell.nan)).snd))))

/-- Number of rows of a frame (`df.shape[0]`). -/
def df_nrows (df : DF K V) : Nat := df.keys.length

/-- The function `scan_table_to_df` (lines 23-50): run the paginated scan,
build a frame from the collected items, and, when `unpackFlag` is set and the
frame has at least one row, unpack nested entries via
`set_index(['ppid_session_dataname']).apply(pd.Series.explode).reset_index()`.
`none` models an uncaught pandas exception during unpacking.  (In the code
the index column is only split out inside the unpack branch; the model keeps
the row identifier as the frame's key in both branches, which carries the
same data.) -/
def scan_table_to_df (pages : List (ScanPage (Item V))) (unpackFlag : Bool) :
    Option (DF String V) :=
  if unpackFlag && !(scanAll pages).fst.isEmpty then unpack (toDF (scanAll pages).fst)
  else some (toDF (scanAll pages).fst)

/-- What a call to `save_dataframe` did: the files it created and the line it
printed. -/
structure SaveResult where
  files_written : List String
  printed : String

/-- The function `save_dataframe` (lines 53-59): write the frame to
`file_name` and report the row count when it has rows, otherwise write
nothing and report "no data, skipping".  The function is total: it never
raises, in particular not on an empty frame. -/
def save_dataframe (df : DF K V) (file_name : String) : SaveResult :=
  if 0 < df_nrows df then
    SaveResult.mk [file_name] (file_name ++ ": " ++ toString (df_nrows df) ++ " rows.")
  else
    SaveResult.mk [] (file_name ++ ": no data, skipping.")

/-- The function `get_table_name` (lines 12-14): the fully qualified table
name string; in the script the prefix argument defaults to "UXFData". -/
def get_table_name (experiment table pfx : String) : String :=
  pfx ++ "." ++ experiment ++ "." ++ table

/-- A broken-down local time as passed to `time.strftime`. -/
structure Tm where
  tm_year : Nat
  tm_mon : Nat
  tm_mday : Nat
  tm_hour : Nat
  tm_min : Nat

/-- Zero-padded two-digit decimal field of `strftime`. -/
def pad2 (n : Nat) : String :=
  if n < 10 then "0" ++ toString n else toString n

/-- Zero-padded four-digit decimal field of `strftime` (`%Y`). -/
def pad4 (n : Nat) : String :=
  if n < 10 then "000" ++ toString n
  else if n < 100 then "00" ++ toString n
  else if n < 1000 then "0" ++ toString n
  else toString n

/-- The timestamp `time.strftime('%Y%m%d_%H%m', t)` exactly as written on
line 19 of the source: `%Y` year, `%m` month, `%d` day, underscore, `%H`
hour, and then `%m` again, which is the zero-padded MONTH directive (minutes
would be `%M`).  The code therefore renders hour followed by month. -/
def strftime_YmdHm (t : Tm) : String :=
  pad4 t.tm_year ++ pad2 t.tm_mon ++ pad2 t.tm_mday ++ "_" ++
    pad2 t.tm_hour ++ pad2 t.tm_mon

/-- The function `get_output_file_name` (lines 17-20), with the current
local time passed explicitly. -/
def get_output_file_name (experiment table : String) (t : Tm) : String :=
  experiment ++ "_" ++ table ++ "_" ++ strftime_YmdHm t ++ ".csv"

/-- Modelled from the spec: the timestamp `{timestamp:YYYYMMDD_HHmm}` of
section 6, year, month, day, hour and minute at minute granularity (strftime
format `%Y%m%d_%H%M`), for comparison with `strftime_YmdHm` from the code. -/
def strftime_spec (t : Tm) : String :=
  pad4 t.tm_year ++ pad2 t.tm_mon ++ pad2 t.tm_mday ++ "_" ++
    pad2 t.tm_hour ++ pad2 t.tm_min

/-- Modelled from the spec: output file name
`{experiment}_{table_kind}_{timestamp:YYYYMMDD_HHmm}.csv`. -/
def get_output_file_name_spec (experiment table : String) (t : Tm) : String :=
  experiment ++ "_" ++ table ++ "_" ++ strftime_spec t ++ ".csv"

/-- The outcome of processing one table: either a `save_dataframe` result or
a printed skip message for a table that was not found. -/
inductive RunEvent where
  | saved : SaveResult → RunEvent
  | skipped : String → RunEvent

/-- The remote DynamoDB store, as visible to this script: the tables that
exist, each with the page sequence its scan produces.  A name missing from
the store makes `table.scan()` raise `ResourceNotFoundException`. -/
structure Store (V : Type) where
  tables : List (String × List (ScanPage (Item V)))

/-- Look up a table's scan pages by its fully qualified name. -/
def Store.find? (s : Store V) (name : String) : Option (List (ScanPage (Item V))) :=
  s.tables.lookup name

/-- The function `download_uxf_tables` (lines 62-79): for each table kind,
build the table name and the output file name, scan and unpack the table and
save it.  Only `ResourceNotFoundException` is caught (lines 78-79): the
table is skipped with a printed message and processing continues.  Any other
exception -- such as the pandas alignment error during unpacking -- is
uncaught and aborts the whole run, modelled by `Except.error`. -/
def download_uxf_tables (store : Store V) (experiment : String)
    (tbls : List String) (pfx : String) (t : Tm) : Except String (List RunEvent) :=
  match tbls with
  | [] => Except.ok []
  | tb :: rest =>
    match Store.find? store (get_table_name experiment tb pfx) with
    | none =>
      (download_uxf_tables store experiment rest pfx t).map
        (fun evs => RunEvent.skipped
          (get_output_file_name experiment tb t ++ ": table " ++
            get_table_name experiment tb pfx ++ " not found, skipping.") :: evs)
    | some pages =>
      match scan_table_to_df pages true with
      | none => Except.error "ValueError: cannot reindex from a duplicate axis"
      | some df =>
        (download_uxf_tables store experiment rest pfx t).map
          (fun evs => RunEvent.saved
            (save_dataframe df (get_output_file_name experiment tb t)) :: evs)

/-- A DynamoDB item of the Trackers table: the `ppid_session_dataname` row
identifier, the per-trial `trial_num` value, and the remaining fields. -/
structure TrackerItem (V : Type) where
  ppid_session_dataname : String
  trial_num : V
  fields : List (String × Cell V)

/-- The step `pd.DataFrame.from_records(items).set_index(['ppid_session_dataname',
'trial_num'])` of `download_tracker_data` (lines 107-108).  For an empty item
list, `from_records` yields a frame with no columns at all, and `set_index`
on the missing column names raises `KeyError`, modelled as `none`. -/
def tracker_toDF (items : List (TrackerItem V)) : Option (DF (String × V) V) :=
  match items with
  | [] => none
  | it0 :: _ =>
    some (DF.mk (items.map (fun r => (r.ppid_session_dataname, r.trial_num)))
      ((List.range it0.fields.length).map (fun j =>
        ((it0.fields.getD j ("", Cell.nan)).fst,
         items.map (fun r => (r.fields.getD j ("", Cell.nan)).snd)))))

/-- The function `download_tracker_data` (lines 82-112): scan the Trackers
table, set the two-column index, unpack unconditionally (there is no
`shape[0] > 0` guard on this path), and save.  `trackerPages` is `none` when
the table does not exist, in which case the `ResourceNotFoundException` is
caught and a skip message printed.  The `KeyError` of `set_index` on an
empty scan and the pandas alignment `ValueError` are not caught and abort
the run, modelled as `Except.error`. -/
def download_tracker_data (trackerPages : Option (List (ScanPage (TrackerItem V))))
    (experiment pfx : String) (t : Tm) : Except String RunEvent :=
  match trackerPages with
  | none =>
    Except.ok (RunEvent.skipped
      (get_output_file_name experiment "Trackers" t ++ ": table " ++
        get_table_name experiment "Trackers" pfx ++ " not found, skipping."))
  | some pages =>
    match tracker_toDF (scanAll pages).fst with
    | none => Except.error "KeyError: index columns not found in the empty frame"
    | some df =>
      match unpack df with
      | none => Except.error "ValueError: cannot reindex from a duplicate axis"
      | some d =>
        Except.ok (RunEvent.saved
          (save_dataframe d (get_output_file_name experiment "Trackers" t)))

/-- The outcome of the credential handling of the `__main__` block
(lines 139-151): either the keyword arguments passed to `boto3.Session`, or
a printed usage error followed by `sys.exit` with the given code.  The
session is created, and any network traffic happens, only after this block,
so a `usage_error` outcome means no session and no network call was made. -/
inductive SessionSetup where
  | session : List (String × String) → SessionSetup
  | usage_error : String → Int → SessionSetup

/-- Lines 139-149: build the `boto3.Session` keyword arguments from the
command line options; if exactly one of `--access` and `--secret` is given,
print an error and exit with status -1. -/
def setup_session (region profileOpt access secret : Option String) : SessionSetup :=
  let a0 : List (String × String) := []
  let a1 := match region with
    | some r => a0 ++ [("region_name", r)]
    | none => a0
  let a2 := match profileOpt with
    | some p => a1 ++ [("profile_name", p)]
    | none => a1
  match access, secret with
  | some a, some s =>
    SessionSetup.session (a2 ++ [("aws_access_key_id", a), ("aws_secret_access_key", s)])
  | none, none => SessionSetup.session a2
  | _, _ =>
    SessionSetup.usage_error
      "Error: --access and --secret must both be specified to use credentials from the command line!"
      (-1)

/-- The fixed table list of the `__main__` block (line 118). -/
def TABLES : List String :=
  ["ParticipantDetails", "TrialResults", "Settings", "SessionLog", "SummaryStatistics"]

/-- The table kinds the `__main__` block downloads (lines 153-169): with the
participant flag `-p`, exactly `ParticipantDetails`; otherwise the fixed
`TABLES` list, followed by the Trackers table exactly when the `-t` flag is
set (lines 157-160). -/
def main_table_kinds (p tracker : Bool) : List String :=
  if p then ["ParticipantDetails"]
  else TABLES ++ (if tracker then ["Trackers"] else [])

/-- The slice of operating-system state the `__main__` block touches:
the current working directory and the set of existing directories. -/
structure OsState where
  cwd : String
  dirs : List String

/-- `os.path.join` for the one two-component call of the script. -/
def os_path_join (a b : String) : String := a ++ "/" ++ b

/-- `os.getcwd()`. -/
def os_getcwd (s : OsState) : String := s.cwd

/-- `os.chdir(d)`. -/
def os_chdir (s : OsState) (d : String) : OsState := { s with cwd := d }

/-- `os.mkdir(d)`: creates the directory, leaving the working directory
unchanged. -/
def os_mkdir (s : OsState) (d : String) : OsState := { s with dirs := d :: s.dirs }

/-- `os.path.isdir(d)`. -/
def os_isdir (s : OsState) (d : String) : Bool := s.dirs.contains d

/-- Lines 131-136 of the `__main__` block: with the `-f` flag, build the
per-experiment subfolder path, create it if missing, remember the previous
working directory and change into the subfolder.  Returns the new state and
the remembered `prev_wd`.  This runs before the session is created and
before any download. -/
def main_enter_subfolder (folder : Bool) (experiment : String) (s : OsState) :
    OsState × Option String :=
  if folder then
    let data_folder := os_path_join (os_getcwd s) experiment
    let s1 := if os_isdir s data_folder then s else os_mkdir s data_folder
    let prev_wd := os_getcwd s1
    (os_chdir s1 data_folder, some prev_wd)
  else (s, none)

/-- Lines 171-172 of the `__main__` block: with the `-f` flag, change back
to the remembered working directory after all downloads are complete.  The
download functions never change the working directory, so the state they
leave behind is the one `main_enter_subfolder` produced. -/
def main_restore_wd (folder : Bool) (prev_wd : Option String) (s : OsState) : OsState :=
  if folder then
    match prev_wd with
    | some p => os_chdir s p
    | none => s
  else s

/-- A concrete local time: 2026-10-12, 14:37. -/
def t0 : Tm := Tm.mk 2026 10 12 14 37

/-- C3 at the failing input: on the standard path an empty scan yields the
empty frame, `save_dataframe` writes no file and prints the skip line
without raising; but `download_tracker_data` on a Trackers table whose scan
returns no records raises an uncaught `KeyError` (the unpack step runs
unconditionally and `set_index` fails on the column-less empty frame),
aborting the run instead of printing "no data, skipping". -/
theorem C3_empty_scan_behaviour :
    scan_table_to_df [ScanPage.mk ([] : List (Item Nat)) none] true =
      some (DF.mk [] []) ∧
    save_dataframe (DF.mk ([] : List String) ([] : List (String × List (Cell Nat))))
      "Exp1_Trackers_20261012_1410.csv" =
      SaveResult.mk [] "Exp1_Trackers_20261012_1410.csv: no data, skipping." ∧
    download_tracker_data (some [ScanPage.mk ([] : List (TrackerItem Nat)) none])
      "Exp1" "UXFData" t0 =
      Except.error "KeyError: index columns not found in the empty frame" :=
  ⟨rfl, rfl, rfl⟩

/-- C4 at the failing input: the `strftime` format on line 19 is
`'%Y%m%d_%H%m'`, whose trailing `%m` is the month directive, not the minute
directive `%M`.  At 2026-10-12 14:37 the code produces the timestamp
`20261012_1410` (hour 14, month 10) while the specified format
`YYYYMMDD_HHmm` requires `20261012_1437` (hour 14, minute 37). -/
theorem C4_filename_timestamp :
    get_output_file_name "Exp1" "TrialResults" t0 =
      "Exp1_TrialResults_20261012_1410.csv" ∧
    get_output_file_name_spec "Exp1" "TrialResults" t0 =
      "Exp1_TrialResults_20261012_1437.csv" ∧
    get_output_file_name "Exp1" "TrialResults" t0 ≠
      get_output_file_name_spec "Exp1" "TrialResults" t0 :=
  ⟨rfl, rfl, by decide⟩

/-- C5: when the scan of one table kind raises `ResourceNotFoundException`
(the table name is absent from the store), `download_uxf_tables` catches it
locally, records the printed skip message for that table, and processes the
remaining table kinds exactly as it would have without the failed one; in
particular the not-found failure never yields an `Except.error`. -/
theorem C5_table_not_found_isolation (V : Type) (store : Store V)
    (experiment tb pfx : String) (rest : List String) (t : Tm)
    (h : Store.find? store (get_table_name experiment tb pfx) = none) :
    download_uxf_tables store experiment (tb :: rest) pfx t =
      (download_uxf_tables store experiment rest pfx t).map
        (fun evs => RunEvent.skipped
          (get_output_file_name experiment tb t ++ ": table " ++
            get_table_name experiment tb pfx ++ " not found, skipping.") :: evs) := by
  conv_lhs => rw [download_uxf_tables]
  rw [h]

/-- Witness for C5: a store with no tables at all. -/
theorem C5_table_not_found_isolation_witness :
    Store.find? (Store.mk ([] : List (String × List (ScanPage (Item Nat)))))
      (get_table_name "E" "TrialResults" "UXFData") = none ∧
    download_uxf_tables (Store.mk ([] : List (String × List (ScanPage (Item Nat)))))
      "E" ("TrialResults" :: []) "UXFData" t0 =
      (download_uxf_tables (Store.mk ([] : List (String × List (ScanPage (Item Nat)))))
        "E" [] "UXFData" t0).map
        (fun evs => RunEvent.skipped
          (get_output_file_name "E" "TrialResults" t0 ++ ": table " ++
            get_table_name "E" "TrialResults" "UXFData" ++ " not found, skipping.") :: evs) :=
  ⟨rfl, C5_table_not_found_isolation Nat (Store.mk []) "E" "TrialResults" "UXFData" [] t0 rfl⟩

/-- C8: if exactly one of `--access` and `--secret` is given, the
`__main__` block prints a descriptive error and exits with the non-zero
status -1, before `boto3.Session` is constructed and hence before any
network call or store session. -/
theorem C8_partial_credentials_usage_error :
    (∀ region profileOpt : Option String, ∀ a : String,
      setup_session region profileOpt (some a) none =
        SessionSetup.usage_error
          "Error: --access and --secret must both be specified to use credentials from the command line!"
          (-1)) ∧
    (∀ region profileOpt : Option String, ∀ s : String,
      setup_session region profileOpt none (some s) =
        SessionSetup.usage_error
          "Error: --access and --secret must both be specified to use credentials from the command line!"
          (-1)) ∧
    ((-1 : Int) ≠ 0) :=
  ⟨fun _ _ _ => rfl, fun _ _ _ => rfl, by decide⟩

/-- C9: the Trackers table kind is not in the default `TABLES` list, and the
`__main__` block includes it among the downloaded table kinds exactly when
the tracker flag is set (and the participant-only flag is not): in default
mode the tracker table is never touched. -/
theorem C9_trackers_only_on_flag :
    ("Trackers" ∉ TABLES) ∧
    (∀ p tracker : Bool,
      "Trackers" ∈ main_table_kinds p tracker ↔ (p = false ∧ tracker = true)) := by
  decide

/-- C10: with the subfolder flag set, the `__main__` block changes the
working directory to the per-experiment subfolder before any download, and
after all downloads restores it, leaving the working directory exactly as it
was before the run. -/
theorem C10_subfolder_wd_restored (experiment : String) (s : OsState) :
    (main_enter_subfolder true experiment s).fst.cwd =
      os_path_join s.cwd experiment ∧
    (main_restore_wd true (main_enter_subfolder true experiment s).snd
      (main_enter_subfolder true experiment s).fst).cwd = s.cwd := by
  constructor
  · rfl
  · simp [main_enter_subfolder, main_restore_wd, os_chdir, os_getcwd, os_mkdir,
      os_path_join, os_isdir]
    split <;> rfl

end UxfAwsDownload
